import Mathlib

/-!
Verification of the proto-compilation build scripts
`scripts/proto/compile_python.py` and `scripts/proto/compile_typescript.py`.

Each script is a straight-line orchestrator: it ensures an output directory
exists, enumerates `*.proto` files in a fixed source directory, invokes an
external compiler once per file with `check=False`, and (Python pipeline
only) invokes the `protol` import fixer once over the whole batch, logging
progress throughout.

The embedding below models the scripts as functions from
  - an initial filesystem (the set of existing directories),
  - the path sequences returned by each `Path.glob("*.proto")` call
    (glob order is filesystem dependent, so the results are parameters), and
  - an exit-code oracle giving the exit status of each subprocess invocation
to an `Except`-wrapped final filesystem together with a trace of observable
events (log lines, directory creations, glob calls, subprocess invocations).
Subprocess stdout/stderr is not captured by the scripts (`subprocess.run`
without `capture_output`), so process output does not appear in the model at
all; only the exit status of each invocation is visible, recorded in the
trace event.  The `checkArg` field of a subprocess event records the `check`
keyword argument as written at the call site (`some b` when passed
explicitly, `none` when left to its default).
-/

/-- A filesystem path, as its list of components ("a/b/c" is ["a","b","c"]). -/
abbrev FPath := List String

/-- Render a path the way `str(pathlib.Path(...))` does on POSIX. -/
def joinPath (p : FPath) : String := String.intercalate "/" p

/-- `PROTO_DIR = FPath("proto")` in both scripts. -/
def PROTO_DIR : FPath := ["proto"]

/-- `COMPILED_PY_DIR = FPath("backend/packages/proto/proto/compiled")`. -/
def COMPILED_PY_DIR : FPath := ["backend", "packages", "proto", "proto", "compiled"]

/-- `COMPILED_TS_DIR = FPath("packages/proto/src/lib/gen")`. -/
def COMPILED_TS_DIR : FPath := ["packages", "proto", "src", "lib", "gen"]

/-- The filesystem state the scripts themselves mutate: the set of existing
directories.  The scripts' own writes are limited to `mkdir`; generated
artifacts are written by the external compiler processes. -/
structure FS where
  dirs : List FPath
deriving DecidableEq, Repr

/-- Errors `pathlib.Path.mkdir` can raise. -/
inductive FsError where
  | fileExists (p : FPath)
  | fileNotFound (p : FPath)
deriving DecidableEq, Repr

/-- Add a directory to the filesystem if not already present. -/
def insertDir (fs : FS) (p : FPath) : FS :=
  if p ∈ fs.dirs then fs else ⟨p :: fs.dirs⟩

/-- All nonempty ancestors of a path, up to and including the path itself. -/
def ancestors (p : FPath) : List FPath :=
  (List.range p.length).map (fun i => p.take (i + 1))

/-- `pathlib.Path.mkdir(parents=..., exist_ok=...)`: raises `FileExistsError`
if the directory exists and `exist_ok` is false; with `parents` set, creates
all missing ancestors; without `parents`, raises `FileNotFoundError` when the
parent is missing. -/
def mkdir (fs : FS) (p : FPath) (parents exist_ok : Bool) : Except FsError FS :=
  if p ∈ fs.dirs then
    if exist_ok then .ok fs else .error (.fileExists p)
  else if parents then
    .ok ((ancestors p).foldl insertDir fs)
  else if p.dropLast = [] ∨ p.dropLast ∈ fs.dirs then
    .ok (insertDir fs p)
  else
    .error (.fileNotFound p.dropLast)

/-- Observable events of a run.  `deleteFile`/`deleteDir` are in the event
vocabulary so that "the tool never deletes" is a statement about traces, not
an artifact of a too-small alphabet; the scripts never emit them. -/
inductive Event where
  | log (msg : String)
  | mkdirEvt (path : FPath) (parents exist_ok : Bool)
  | glob (dir : FPath) (pattern : String)
  | runProc (argv : List String) (checkArg : Option Bool) (exitCode : Nat)
  | deleteFile (path : FPath)
  | deleteDir (path : FPath)
deriving DecidableEq, Repr

/-- Argument vector of the per-file `grpc_tools.protoc` invocation
(compile_python.py lines 21-33). -/
def pythonCompileArgv (f : FPath) : List String :=
  ["python", "-m", "grpc_tools.protoc",
   "--proto_path=" ++ joinPath PROTO_DIR,
   "--python_out=" ++ joinPath COMPILED_PY_DIR,
   "--grpc_python_out=" ++ joinPath COMPILED_PY_DIR,
   "--pyi_out=" ++ joinPath COMPILED_PY_DIR,
   joinPath f]

/-- Argument vector of the single `protol` invocation
(compile_python.py lines 37-48); `g` is the result of the second glob. -/
def protolArgv (g : List FPath) : List String :=
  ["protol", "--create-package", "--in-place",
   "--python-out=" ++ joinPath COMPILED_PY_DIR,
   "protoc",
   "--proto-path=" ++ joinPath PROTO_DIR]
  ++ g.map joinPath

/-- Argument vector of the per-file `protoc` invocation
(compile_typescript.py lines 22-32). -/
def tsCompileArgv (f : FPath) : List String :=
  ["protoc",
   "--proto_path=" ++ joinPath PROTO_DIR,
   "--plugin=node_modules/.bin/protoc-gen-ts_proto",
   "--ts_proto_out=" ++ joinPath COMPILED_TS_DIR,
   "--ts_proto_opt=importSuffix=.js",
   joinPath f]

/-- The per-file compilation loop: one subprocess event per enumerated file,
in enumeration order, with `check=False` written explicitly at the call site;
`i` counts invocations so the oracle `e` can assign each an exit status. -/
def compileEvts (argvOf : FPath → List String) (e : Nat → Nat) :
    Nat → List FPath → List Event
  | _, [] => []
  | i, f :: rest =>
      Event.runProc (argvOf f) (some false) (e i) :: compileEvts argvOf e (i + 1) rest

/-- Final log line of compile_python.py (line 50). -/
def pyDoneMsg : String :=
  "Python proto files compiled to backend/packages/proto/proto/compiled with fixed imports"

/-- Final log line of compile_typescript.py (line 34). -/
def tsDoneMsg : String :=
  "TypeScript proto files compiled to packages/proto/src/lib/gen"

/-- Event trace of compile_python.py, in statement order: mkdir (line 16),
log (19), glob + compile loop (20-33), log (36), glob + protol (37-48),
final log (50).  `g1` is what the first glob returns, `g2` the second;
`e` assigns exit statuses, the protol call being invocation `g1.length`. -/
def pythonTrace (g1 g2 : List FPath) (e : Nat → Nat) : List Event :=
  [Event.mkdirEvt COMPILED_PY_DIR true true,
   Event.log "Compiling proto files for Python...",
   Event.glob PROTO_DIR "*.proto"]
  ++ compileEvts pythonCompileArgv e 0 g1
  ++ [Event.log "Fixing imports for Python...",
      Event.glob PROTO_DIR "*.proto",
      Event.runProc (protolArgv g2) (some false) (e g1.length),
      Event.log pyDoneMsg]

/-- compile_python.py as a whole: the only filesystem mutation performed by
the script itself is the `mkdir` on line 16; the rest of the run emits the
trace.  Subprocess exit statuses never influence control flow
(`check=False` on every call). -/
def pythonRun (fs : FS) (g1 g2 : List FPath) (e : Nat → Nat) :
    Except FsError (FS × List Event) := do
  let fs1 ← mkdir fs COMPILED_PY_DIR true true
  pure (fs1, pythonTrace g1 g2 e)

/-- Event trace of compile_typescript.py, in statement order: mkdir (line 16),
log (19), glob (20), compile loop (21-32), final log (34). -/
def tsTrace (g : List FPath) (e : Nat → Nat) : List Event :=
  [Event.mkdirEvt COMPILED_TS_DIR true true,
   Event.log "Compiling proto files for TypeScript...",
   Event.glob PROTO_DIR "*.proto"]
  ++ compileEvts tsCompileArgv e 0 g
  ++ [Event.log tsDoneMsg]

/-- compile_typescript.py as a whole. -/
def tsRun (fs : FS) (g : List FPath) (e : Nat → Nat) :
    Except FsError (FS × List Event) := do
  let fs1 ← mkdir fs COMPILED_TS_DIR true true
  pure (fs1, tsTrace g e)

/-- The argument vector of a subprocess event, if it is one. -/
def eventArgv : Event → Option (List String)
  | .runProc a _ _ => some a
  | _ => none

/-- The `check` argument of a subprocess event, if it is one. -/
def eventCheckArg : Event → Option (Option Bool)
  | .runProc _ c _ => some c
  | _ => none

/-- All subprocess argument vectors of a trace, in order. -/
def procArgvs (t : List Event) : List (List String) := t.filterMap eventArgv

/-- All `check` arguments of a trace's subprocess events, in order. -/
def checkArgs (t : List Event) : List (Option Bool) := t.filterMap eventCheckArg

def isPyCompileArgv (a : List String) : Bool := a.head? == some "python"

def isProtolArgv (a : List String) : Bool := a.head? == some "protol"

def isProtocArgv (a : List String) : Bool := a.head? == some "protoc"

/-- Compiler invocations of a python-pipeline trace. -/
def pyCompilerArgvs (t : List Event) : List (List String) :=
  (procArgvs t).filter isPyCompileArgv

/-- Import-fixer invocations of a python-pipeline trace. -/
def protolArgvs (t : List Event) : List (List String) :=
  (procArgvs t).filter isProtolArgv

/-- Compiler invocations of a typescript-pipeline trace. -/
def tsCompilerArgvs (t : List Event) : List (List String) :=
  (procArgvs t).filter isProtocArgv

/-- Whether an event is a deletion. -/
def Event.isDelete : Event → Bool
  | .deleteFile _ => true
  | .deleteDir _ => true
  | _ => false

/-- Whether an event is a glob call. -/
def Event.isGlob : Event → Bool
  | .glob _ _ => true
  | _ => false

/-- The filesystem produced by `mkdir fs p true true` (which never errors). -/
def mkdirTT (fs : FS) (p : FPath) : FS :=
  if p ∈ fs.dirs then fs else (ancestors p).foldl insertDir fs

/-- Filesystem after a compile_python.py run. -/
def pythonRunFS (fs : FS) : FS := mkdirTT fs COMPILED_PY_DIR

/-- Filesystem after a compile_typescript.py run. -/
def tsRunFS (fs : FS) : FS := mkdirTT fs COMPILED_TS_DIR

/-- File arguments handed to `protol`: everything after the six fixed
flag/command tokens of its argument vector. -/
def protolFilesOf (t : List Event) : List String :=
  (protolArgvs t).flatMap (fun a => a.drop 6)

/-- Files compiled by the python pipeline: the final argument of each
compiler invocation. -/
def compiledFilesOf (t : List Event) : List String :=
  (pyCompilerArgvs t).filterMap List.getLast?

/-- Fixed flags preceding the file path in the python compiler invocation. -/
def pythonFixedArgs : List String :=
  ["python", "-m", "grpc_tools.protoc",
   "--proto_path=proto",
   "--python_out=backend/packages/proto/proto/compiled",
   "--grpc_python_out=backend/packages/proto/proto/compiled",
   "--pyi_out=backend/packages/proto/proto/compiled"]

/-- Fixed flags preceding the file path in the typescript compiler
invocation. -/
def tsFixedArgs : List String :=
  ["protoc",
   "--proto_path=proto",
   "--plugin=node_modules/.bin/protoc-gen-ts_proto",
   "--ts_proto_out=packages/proto/src/lib/gen",
   "--ts_proto_opt=importSuffix=.js"]

/-- Erase the exit status from subprocess events.  Two traces equal after
erasure differ at most in the captured exit statuses: nothing else the run
does depends on what the subprocesses return. -/
def eraseCode : Event → Event
  | .runProc a c _ => .runProc a c 0
  | ev => ev

/-- A sample glob result with one proto file, for concrete evaluations. -/
def gEx : List FPath := [["proto", "a.proto"]]

/-- An exit-code oracle under which every invocation fails. -/
def eFail : Nat → Nat := fun _ => 1

/-! ## Helper lemmas -/

theorem mkdir_true_true (fs : FS) (p : FPath) :
    mkdir fs p true true = .ok (mkdirTT fs p) := by
  unfold mkdir mkdirTT
  split <;> simp

theorem pythonRun_eq (fs : FS) (g1 g2 : List FPath) (e : Nat → Nat) :
    pythonRun fs g1 g2 e = .ok (pythonRunFS fs, pythonTrace g1 g2 e) := by
  unfold pythonRun pythonRunFS
  rw [mkdir_true_true]
  rfl

theorem tsRun_eq (fs : FS) (g : List FPath) (e : Nat → Nat) :
    tsRun fs g e = .ok (tsRunFS fs, tsTrace g e) := by
  unfold tsRun tsRunFS
  rw [mkdir_true_true]
  rfl

theorem procArgvs_append (s t : List Event) :
    procArgvs (s ++ t) = procArgvs s ++ procArgvs t :=
  List.filterMap_append s t eventArgv

theorem checkArgs_append (s t : List Event) :
    checkArgs (s ++ t) = checkArgs s ++ checkArgs t :=
  List.filterMap_append s t eventCheckArg

theorem procArgvs_compileEvts (a : FPath → List String) (e : Nat → Nat)
    (i : Nat) (g : List FPath) :
    procArgvs (compileEvts a e i g) = g.map a := by
  induction g generalizing i with
  | nil => rfl
  | cons f rest ih =>
      show a f :: procArgvs (compileEvts a e (i + 1) rest) = a f :: rest.map a
      rw [ih]

theorem checkArgs_compileEvts (a : FPath → List String) (e : Nat → Nat)
    (i : Nat) (g : List FPath) :
    checkArgs (compileEvts a e i g) = g.map (fun _ => some false) := by
  induction g generalizing i with
  | nil => rfl
  | cons f rest ih =>
      show some false :: checkArgs (compileEvts a e (i + 1) rest)
          = some false :: rest.map (fun _ => some false)
      rw [ih]

theorem filter_map_of_all {α : Type} (p : List String → Bool) (f : α → List String)
    (h : ∀ x, p (f x) = true) (g : List α) :
    (g.map f).filter p = g.map f := by
  induction g with
  | nil => rfl
  | cons x rest ih => simp [h, ih]

theorem filter_map_of_none {α : Type} (p : List String → Bool) (f : α → List String)
    (h : ∀ x, p (f x) = false) (g : List α) :
    (g.map f).filter p = [] := by
  induction g with
  | nil => rfl
  | cons x rest ih => simp [h, ih]

theorem isPyCompileArgv_compile (f : FPath) :
    isPyCompileArgv (pythonCompileArgv f) = true := rfl

theorem isProtolArgv_compile (f : FPath) :
    isProtolArgv (pythonCompileArgv f) = false := rfl

theorem isProtocArgv_ts (f : FPath) :
    isProtocArgv (tsCompileArgv f) = true := rfl

theorem isProtolArgv_protol (g : List FPath) :
    isProtolArgv (protolArgv g) = true := rfl

theorem isPyCompileArgv_protol (g : List FPath) :
    isPyCompileArgv (protolArgv g) = false := rfl

theorem procArgvs_pythonTrace (g1 g2 : List FPath) (e : Nat → Nat) :
    procArgvs (pythonTrace g1 g2 e) = g1.map pythonCompileArgv ++ [protolArgv g2] := by
  unfold pythonTrace
  rw [procArgvs_append, procArgvs_append, procArgvs_compileEvts]
  rfl

theorem procArgvs_tsTrace (g : List FPath) (e : Nat → Nat) :
    procArgvs (tsTrace g e) = g.map tsCompileArgv := by
  unfold tsTrace
  rw [procArgvs_append, procArgvs_append, procArgvs_compileEvts]
  exact List.append_nil _

theorem pyCompilerArgvs_pythonTrace (g1 g2 : List FPath) (e : Nat → Nat) :
    pyCompilerArgvs (pythonTrace g1 g2 e) = g1.map pythonCompileArgv := by
  unfold pyCompilerArgvs
  rw [procArgvs_pythonTrace, List.filter_append,
    filter_map_of_all _ _ isPyCompileArgv_compile]
  simp [isPyCompileArgv_protol]

theorem protolArgvs_pythonTrace (g1 g2 : List FPath) (e : Nat → Nat) :
    protolArgvs (pythonTrace g1 g2 e) = [protolArgv g2] := by
  unfold protolArgvs
  rw [procArgvs_pythonTrace, List.filter_append,
    filter_map_of_none _ _ isProtolArgv_compile]
  simp [isProtolArgv_protol]

theorem tsCompilerArgvs_tsTrace (g : List FPath) (e : Nat → Nat) :
    tsCompilerArgvs (tsTrace g e) = g.map tsCompileArgv := by
  unfold tsCompilerArgvs
  rw [procArgvs_tsTrace, filter_map_of_all _ _ isProtocArgv_ts]

theorem mem_insertDir_self (fs : FS) (p : FPath) : p ∈ (insertDir fs p).dirs := by
  unfold insertDir
  split
  · assumption
  · exact List.mem_cons_self p fs.dirs

theorem mem_insertDir_of_mem (fs : FS) (p q : FPath) (h : q ∈ fs.dirs) :
    q ∈ (insertDir fs p).dirs := by
  unfold insertDir
  split
  · exact h
  · exact List.mem_cons_of_mem p h

theorem mem_foldl_insertDir_of_mem (l : List FPath) (fs : FS) (q : FPath)
    (h : q ∈ fs.dirs) : q ∈ (l.foldl insertDir fs).dirs := by
  induction l generalizing fs with
  | nil => exact h
  | cons x rest ih => exact ih _ (mem_insertDir_of_mem fs x q h)

theorem mem_foldl_insertDir (l : List FPath) (fs : FS) (q : FPath) (h : q ∈ l) :
    q ∈ (l.foldl insertDir fs).dirs := by
  induction l generalizing fs with
  | nil => cases h
  | cons x rest ih =>
      rw [List.mem_cons] at h
      rcases h with h | h
      · subst h
        exact mem_foldl_insertDir_of_mem rest _ _ (mem_insertDir_self fs q)
      · exact ih (insertDir fs x) h

theorem self_mem_ancestors (p : FPath) (hp : p ≠ []) : p ∈ ancestors p := by
  have hl : 0 < p.length := List.length_pos.mpr hp
  refine List.mem_map.mpr ⟨p.length - 1, List.mem_range.mpr (by omega), ?_⟩
  have h1 : p.length - 1 + 1 = p.length := by omega
  rw [h1]
  exact List.take_length p

theorem mem_mkdirTT_self (fs : FS) (p : FPath) (hp : p ≠ []) :
    p ∈ (mkdirTT fs p).dirs := by
  unfold mkdirTT
  split
  · assumption
  · exact mem_foldl_insertDir _ _ _ (self_mem_ancestors p hp)

theorem mem_mkdirTT_of_mem (fs : FS) (p q : FPath) (h : q ∈ fs.dirs) :
    q ∈ (mkdirTT fs p).dirs := by
  unfold mkdirTT
  split
  · exact h
  · exact mem_foldl_insertDir_of_mem _ _ _ h

theorem mkdirTT_of_mem (fs : FS) (p : FPath) (h : p ∈ fs.dirs) :
    mkdirTT fs p = fs := by
  unfold mkdirTT
  simp [h]

theorem mkdirTT_idem (fs : FS) (p : FPath) (hp : p ≠ []) :
    mkdirTT (mkdirTT fs p) p = mkdirTT fs p :=
  mkdirTT_of_mem _ _ (mem_mkdirTT_self fs p hp)

theorem eraseCode_compileEvts (a : FPath → List String) (e eAlt : Nat → Nat)
    (i j : Nat) (g : List FPath) :
    (compileEvts a e i g).map eraseCode = (compileEvts a eAlt j g).map eraseCode := by
  induction g generalizing i j with
  | nil => rfl
  | cons f rest ih =>
      show Event.runProc (a f) (some false) 0 :: (compileEvts a e (i + 1) rest).map eraseCode
          = Event.runProc (a f) (some false) 0 :: (compileEvts a eAlt (j + 1) rest).map eraseCode
      rw [ih]

theorem isDelete_compileEvts (a : FPath → List String) (e : Nat → Nat)
    (i : Nat) (g : List FPath) :
    ∀ ev ∈ compileEvts a e i g, ev.isDelete = false := by
  induction g generalizing i with
  | nil => intro ev h; cases h
  | cons f rest ih =>
      intro ev h
      rw [compileEvts, List.mem_cons] at h
      rcases h with h | h
      · subst h; rfl
      · exact ih (i + 1) ev h

theorem isGlob_compileEvts (a : FPath → List String) (e : Nat → Nat)
    (i : Nat) (g : List FPath) :
    (compileEvts a e i g).filter Event.isGlob = [] := by
  induction g generalizing i with
  | nil => rfl
  | cons f rest ih =>
      show (compileEvts a e (i + 1) rest).filter Event.isGlob = []
      exact ih (i + 1)

theorem getLast_pythonCompileArgv (f : FPath) :
    (pythonCompileArgv f).getLast? = some (joinPath f) := rfl

theorem filterMap_getLast_compile (g : List FPath) :
    (g.map pythonCompileArgv).filterMap List.getLast? = g.map joinPath := by
  induction g with
  | nil => rfl
  | cons f rest ih => simp [getLast_pythonCompileArgv, ih]

theorem protolArgv_drop_six (g : List FPath) :
    (protolArgv g).drop 6 = g.map joinPath := rfl

/-! ## Claim theorems -/

/-- C1: a non-zero exit status of any compiler invocation is not fatal.  For
every exit-code oracle `e` (in particular one under which every invocation
fails), both runs succeed, every enumerated file still gets its compiler
invocation, and each trace ends with the orchestrator's completion log
message. -/
theorem C1_failures_not_fatal (fs : FS) (g1 g2 g : List FPath) (e : Nat → Nat) :
    (pythonRun fs g1 g2 e = .ok (pythonRunFS fs, pythonTrace g1 g2 e)
      ∧ pyCompilerArgvs (pythonTrace g1 g2 e) = g1.map pythonCompileArgv
      ∧ ∃ t, pythonTrace g1 g2 e = t ++ [Event.log pyDoneMsg])
    ∧ (tsRun fs g e = .ok (tsRunFS fs, tsTrace g e)
      ∧ tsCompilerArgvs (tsTrace g e) = g.map tsCompileArgv
      ∧ ∃ t, tsTrace g e = t ++ [Event.log tsDoneMsg]) := by
  refine ⟨⟨pythonRun_eq fs g1 g2 e, pyCompilerArgvs_pythonTrace g1 g2 e, ?_, ?_⟩,
    tsRun_eq fs g e, tsCompilerArgvs_tsTrace g e, ?_, ?_⟩
  · exact [Event.mkdirEvt COMPILED_PY_DIR true true,
      Event.log "Compiling proto files for Python...",
      Event.glob PROTO_DIR "*.proto"]
      ++ compileEvts pythonCompileArgv e 0 g1
      ++ [Event.log "Fixing imports for Python...",
          Event.glob PROTO_DIR "*.proto",
          Event.runProc (protolArgv g2) (some false) (e g1.length)]
  · simp [pythonTrace]
  · exact [Event.mkdirEvt COMPILED_TS_DIR true true,
      Event.log "Compiling proto files for TypeScript...",
      Event.glob PROTO_DIR "*.proto"]
      ++ compileEvts tsCompileArgv e 0 g
  · simp [tsTrace]

/-- C2: the compiler invocations of a run are exactly one per enumerated
file, in enumeration order; for an empty enumeration there are zero
invocations and the run still completes without error. -/
theorem C2_one_invocation_per_file (fs : FS) (g1 g2 g : List FPath) (e : Nat → Nat) :
    (pyCompilerArgvs (pythonTrace g1 g2 e)).length = g1.length
    ∧ pyCompilerArgvs (pythonTrace g1 g2 e) = g1.map pythonCompileArgv
    ∧ (tsCompilerArgvs (tsTrace g e)).length = g.length
    ∧ tsCompilerArgvs (tsTrace g e) = g.map tsCompileArgv
    ∧ pythonRun fs [] [] e = .ok (pythonRunFS fs, pythonTrace [] [] e)
    ∧ pyCompilerArgvs (pythonTrace [] [] e) = []
    ∧ tsRun fs [] e = .ok (tsRunFS fs, tsTrace [] e)
    ∧ tsCompilerArgvs (tsTrace [] e) = [] := by
  refine ⟨?_, pyCompilerArgvs_pythonTrace g1 g2 e, ?_, tsCompilerArgvs_tsTrace g e,
    pythonRun_eq fs [] [] e, ?_, tsRun_eq fs [] e, ?_⟩
  · rw [pyCompilerArgvs_pythonTrace, List.length_map]
  · rw [tsCompilerArgvs_tsTrace, List.length_map]
  · rw [pyCompilerArgvs_pythonTrace]; rfl
  · rw [tsCompilerArgvs_tsTrace]; rfl

/-- C3: regardless of how many proto files either glob returns, the python
pipeline's trace contains exactly one `protol` invocation, and that single
invocation carries the whole batch of enumerated proto files as arguments. -/
theorem C3_protol_invoked_once (g1 g2 : List FPath) (e : Nat → Nat) :
    protolArgvs (pythonTrace g1 g2 e) = [protolArgv g2]
    ∧ (protolArgvs (pythonTrace g1 g2 e)).length = 1
    ∧ (protolArgv g2).drop 6 = g2.map joinPath := by
  refine ⟨protolArgvs_pythonTrace g1 g2 e, ?_, protolArgv_drop_six g2⟩
  rw [protolArgvs_pythonTrace]
  rfl

/-- C4: the python trace decomposes around its unique `protol` event: every
compiler invocation of the run lies strictly before it, and no subprocess
invocation at all occurs after it. -/
theorem C4_protol_after_all_compiles (g1 g2 : List FPath) (e : Nat → Nat) :
    ∃ pre post, pythonTrace g1 g2 e
        = pre ++ Event.runProc (protolArgv g2) (some false) (e g1.length) :: post
      ∧ procArgvs pre = g1.map pythonCompileArgv
      ∧ procArgvs post = [] := by
  refine ⟨[Event.mkdirEvt COMPILED_PY_DIR true true,
      Event.log "Compiling proto files for Python...",
      Event.glob PROTO_DIR "*.proto"]
      ++ compileEvts pythonCompileArgv e 0 g1
      ++ [Event.log "Fixing imports for Python...",
          Event.glob PROTO_DIR "*.proto"],
    [Event.log pyDoneMsg], ?_, ?_, rfl⟩
  · simp [pythonTrace]
  · rw [procArgvs_append, procArgvs_append, procArgvs_compileEvts]
    show g1.map pythonCompileArgv ++ procArgvs [Event.log "Fixing imports for Python...",
      Event.glob PROTO_DIR "*.proto"] = g1.map pythonCompileArgv
    exact List.append_nil _

/-- C5: after either run the target output directory exists; `mkdir` with
`parents=True` creates the directory together with every missing ancestor,
and with `exist_ok=True` it is a no-op, not an error, on an existing
directory. -/
theorem C5_output_dir_exists (fs : FS) (g1 g2 g : List FPath) (e : Nat → Nat) (p : FPath) :
    (∃ t1, pythonRun fs g1 g2 e = .ok (pythonRunFS fs, t1)
      ∧ COMPILED_PY_DIR ∈ (pythonRunFS fs).dirs)
    ∧ (∃ t2, tsRun fs g e = .ok (tsRunFS fs, t2)
      ∧ COMPILED_TS_DIR ∈ (tsRunFS fs).dirs)
    ∧ (p ∉ fs.dirs → ∀ q ∈ ancestors p, q ∈ (mkdirTT fs p).dirs)
    ∧ (p ∈ fs.dirs → mkdir fs p true true = .ok fs) := by
  refine ⟨⟨pythonTrace g1 g2 e, pythonRun_eq fs g1 g2 e, ?_⟩,
    ⟨tsTrace g e, tsRun_eq fs g e, ?_⟩, ?_, ?_⟩
  · exact mem_mkdirTT_self fs COMPILED_PY_DIR (by simp [COMPILED_PY_DIR])
  · exact mem_mkdirTT_self fs COMPILED_TS_DIR (by simp [COMPILED_TS_DIR])
  · intro hnp q hq
    unfold mkdirTT
    rw [if_neg hnp]
    exact mem_foldl_insertDir _ _ _ hq
  · intro hp
    simp [mkdir, hp]

/-- C5 witness: instantiating the parent-creation clause at an empty
filesystem and the no-op clause at a filesystem already containing the
directory. -/
theorem C5_output_dir_exists_witness :
    (["a"] ∈ (mkdirTT (FS.mk []) ["a", "b"]).dirs)
    ∧ (mkdir (FS.mk [["a", "b"]]) ["a", "b"] true true = .ok (FS.mk [["a", "b"]])) :=
  ⟨(C5_output_dir_exists (FS.mk []) [] [] [] (fun _ => 0) ["a", "b"]).2.2.1
      (by decide) ["a"] (by decide),
    (C5_output_dir_exists (FS.mk [["a", "b"]]) [] [] [] (fun _ => 0) ["a", "b"]).2.2.2
      (by decide)⟩

/-- C6 counterexample: the claim says the exit status is "explicitly ignored
in one pipeline and implicitly ignored in the other".  An implicitly ignored
exit status would be a call site whose `check` argument is left to its
default (`checkArg = none`).  On a concrete run of each pipeline, no
subprocess invocation of either pipeline has an implicit `check`: both
scripts write `check=False` explicitly at every call site. -/
theorem C6_counterexample :
    ¬ ((∃ c ∈ checkArgs (pythonTrace gEx gEx eFail), c = none)
      ∨ (∃ c ∈ checkArgs (tsTrace gEx eFail), c = none)) := by
  decide

/-- C6 (amended): each pipeline's invoker captures only the subprocess exit
status — erasing the recorded exit statuses makes the trace (and the
resulting filesystem) independent of the exit-code oracle, so nothing else
of the subprocess results is observed — and the exit status is explicitly
ignored in both pipelines: every call site passes `check=False`. -/
theorem C6_exit_status_ignored (fs : FS) (g1 g2 g : List FPath) (e eAlt : Nat → Nat) :
    (pythonTrace g1 g2 e).map eraseCode = (pythonTrace g1 g2 eAlt).map eraseCode
    ∧ (tsTrace g e).map eraseCode = (tsTrace g eAlt).map eraseCode
    ∧ pythonRun fs g1 g2 e = .ok (pythonRunFS fs, pythonTrace g1 g2 e)
    ∧ tsRun fs g e = .ok (tsRunFS fs, tsTrace g e)
    ∧ checkArgs (pythonTrace g1 g2 e) = g1.map (fun _ => some false) ++ [some false]
    ∧ checkArgs (tsTrace g e) = g.map (fun _ => some false) := by
  refine ⟨?_, ?_, pythonRun_eq fs g1 g2 e, tsRun_eq fs g e, ?_, ?_⟩
  · unfold pythonTrace
    rw [List.map_append, List.map_append, List.map_append, List.map_append,
      eraseCode_compileEvts pythonCompileArgv e eAlt 0 0]
    rfl
  · unfold tsTrace
    rw [List.map_append, List.map_append, List.map_append, List.map_append,
      eraseCode_compileEvts tsCompileArgv e eAlt 0 0]
  · unfold pythonTrace
    rw [checkArgs_append, checkArgs_append, checkArgs_compileEvts]
    rfl
  · unfold tsTrace
    rw [checkArgs_append, checkArgs_append, checkArgs_compileEvts]
    exact List.append_nil _

/-- C7: running a pipeline a second time on the filesystem produced by the
first run raises no filesystem error, leaves the filesystem unchanged
(directory creation is idempotent), and issues the identical trace — in
particular the identical subprocess invocations, so the external compilers
regenerate the same artifact paths in place. -/
theorem C7_second_run_idempotent (fs : FS) (g1 g2 g : List FPath) (e : Nat → Nat) :
    pythonRun (pythonRunFS fs) g1 g2 e = .ok (pythonRunFS fs, pythonTrace g1 g2 e)
    ∧ tsRun (tsRunFS fs) g e = .ok (tsRunFS fs, tsTrace g e)
    ∧ pythonRunFS (pythonRunFS fs) = pythonRunFS fs
    ∧ tsRunFS (tsRunFS fs) = tsRunFS fs := by
  have hpy : pythonRunFS (pythonRunFS fs) = pythonRunFS fs :=
    mkdirTT_idem fs COMPILED_PY_DIR (by simp [COMPILED_PY_DIR])
  have hts : tsRunFS (tsRunFS fs) = tsRunFS fs :=
    mkdirTT_idem fs COMPILED_TS_DIR (by simp [COMPILED_TS_DIR])
  refine ⟨?_, ?_, hpy, hts⟩
  · rw [pythonRun_eq, hpy]
  · rw [tsRun_eq, hts]

/-- C8: in both traces the very first event is the output-directory creation,
so it precedes every compiler invocation; no event of either trace is a
deletion, and the set of existing directories only grows across a run. -/
theorem C8_mkdir_first_never_deletes (fs : FS) (g1 g2 g : List FPath) (e : Nat → Nat) :
    (∃ rest, pythonTrace g1 g2 e = Event.mkdirEvt COMPILED_PY_DIR true true :: rest)
    ∧ (∃ rest, tsTrace g e = Event.mkdirEvt COMPILED_TS_DIR true true :: rest)
    ∧ (∀ ev ∈ pythonTrace g1 g2 e, ev.isDelete = false)
    ∧ (∀ ev ∈ tsTrace g e, ev.isDelete = false)
    ∧ (∀ q, q ∈ fs.dirs → q ∈ (pythonRunFS fs).dirs)
    ∧ (∀ q, q ∈ fs.dirs → q ∈ (tsRunFS fs).dirs) := by
  refine ⟨⟨_, rfl⟩, ⟨_, rfl⟩, ?_, ?_, ?_, ?_⟩
  · intro ev h
    unfold pythonTrace at h
    rw [List.mem_append, List.mem_append] at h
    rcases h with (h | h) | h
    · fin_cases h <;> rfl
    · exact isDelete_compileEvts pythonCompileArgv e 0 g1 ev h
    · fin_cases h <;> rfl
  · intro ev h
    unfold tsTrace at h
    rw [List.mem_append, List.mem_append] at h
    rcases h with (h | h) | h
    · fin_cases h <;> rfl
    · exact isDelete_compileEvts tsCompileArgv e 0 g ev h
    · fin_cases h
      rfl
  · intro q hq
    exact mem_mkdirTT_of_mem fs COMPILED_PY_DIR q hq
  · intro q hq
    exact mem_mkdirTT_of_mem fs COMPILED_TS_DIR q hq

/-- C8 witness: at a concrete run and filesystem, the head event of a trace
is not a deletion and a pre-existing directory survives both runs. -/
theorem C8_mkdir_first_never_deletes_witness :
    (Event.mkdirEvt COMPILED_PY_DIR true true).isDelete = false
    ∧ (["x"] ∈ (pythonRunFS (FS.mk [["x"]])).dirs)
    ∧ (["x"] ∈ (tsRunFS (FS.mk [["x"]])).dirs) :=
  ⟨(C8_mkdir_first_never_deletes (FS.mk [["x"]]) gEx gEx gEx eFail).2.2.1
      (Event.mkdirEvt COMPILED_PY_DIR true true) (by decide),
    (C8_mkdir_first_never_deletes (FS.mk [["x"]]) gEx gEx gEx eFail).2.2.2.2.1
      ["x"] (by decide),
    (C8_mkdir_first_never_deletes (FS.mk [["x"]]) gEx gEx gEx eFail).2.2.2.2.2
      ["x"] (by decide)⟩

/-- C9: the python trace performs exactly two directory enumerations, and
when the two glob calls return the same result (an unchanged filesystem),
the file paths handed to the import fixer are exactly the file paths that
were compiled. -/
theorem C9_protol_files_match_compiled (g1 g2 : List FPath) (e : Nat → Nat) :
    ((pythonTrace g1 g2 e).filter Event.isGlob).length = 2
    ∧ (g1 = g2 →
      protolFilesOf (pythonTrace g1 g2 e) = compiledFilesOf (pythonTrace g1 g2 e)) := by
  constructor
  · unfold pythonTrace
    rw [List.filter_append, List.filter_append, isGlob_compileEvts]
    rfl
  · intro h
    subst h
    unfold protolFilesOf compiledFilesOf
    rw [protolArgvs_pythonTrace, pyCompilerArgvs_pythonTrace, filterMap_getLast_compile]
    simp [protolArgv_drop_six]

/-- C9 witness: with both enumerations returning the same single proto file,
the import fixer receives exactly the compiled file. -/
theorem C9_protol_files_match_compiled_witness :
    gEx = gEx
    ∧ protolFilesOf (pythonTrace gEx gEx eFail) = compiledFilesOf (pythonTrace gEx gEx eFail) :=
  ⟨rfl, (C9_protol_files_match_compiled gEx gEx eFail).2 rfl⟩

/-- C10: each compiler argument vector is a fixed constant flag list followed
by the file's rendered path, and the sequence of subprocess argument vectors
a run issues is a function of the enumerated file sequences alone — it does
not depend on the exit-code oracle. -/
theorem C10_argvs_deterministic (f : FPath) (g1 g2 g : List FPath) (e eAlt : Nat → Nat) :
    pythonCompileArgv f = pythonFixedArgs ++ [joinPath f]
    ∧ tsCompileArgv f = tsFixedArgs ++ [joinPath f]
    ∧ procArgvs (pythonTrace g1 g2 e) = procArgvs (pythonTrace g1 g2 eAlt)
    ∧ procArgvs (tsTrace g e) = procArgvs (tsTrace g eAlt) := by
  refine ⟨rfl, rfl, ?_, ?_⟩
  · rw [procArgvs_pythonTrace, procArgvs_pythonTrace]
  · rw [procArgvs_tsTrace, procArgvs_tsTrace]
